import Mathlib

/-!
# Verification of the shad camera stream lifecycle manager

A shallow embedding of `src/js/services/CameraManager.js` (the Stream
Session Manager of the shad dashboard) and of the grid-layout helpers in
`src/js/utils/helpers.js`, together with proofs of the specified
properties of the session registry, retry/backoff policy, health monitor,
stream initializer and startup sequencer.

Conventions of the embedding:
* JS numbers that hold times, delays and playback positions are modelled
  as `ℚ` (all arithmetic the manager performs on them is exact in ℚ).
* Counters are `ℕ`.
* A JS timer is modelled by the value stored in the corresponding field
  (`retryTimeout`, `initTimeout`); a fired or cleared timer is `none` /
  `false`.  Firing a timer consumes it.
* JS object reference identity (needed to state "a brand-new session
  object") is modelled by an allocation id `sid` on sessions and `eid` on
  video elements, drawn from a counter in the manager state.  These two
  fields are instrumentation only; every other field corresponds to a
  field or observable of the source.
* Asynchronous `element.play()` calls only take effect through the
  `playing` / `error` element events, which are modelled as separate
  events; the call sites therefore do not mutate the element record.
-/

namespace Shad

/-- Observable state of a slot's `HTMLVideoElement` sink: exactly the
fields `CameraManager` reads or writes.  `eid` models JS reference
identity of the element object. -/
structure VideoElement where
  eid : Nat
  currentTime : ℚ
  paused : Bool
  ended : Bool
  readyState : Nat
  hasError : Bool
  hasSrc : Bool
  inGrid : Bool
  deriving DecidableEq

/-- State of an `Hls.js` stream-engine instance that the manager can
observe or drive: whether it is loading (`startLoad`/`stopLoad`) and
whether media is attached (`attachMedia`/`detachMedia`). -/
structure HlsInstance where
  loading : Bool
  attached : Bool
  deriving DecidableEq

/-- A pending retry timer (the value of `cameraData.retryTimeout`),
carrying the delay it was scheduled with, in milliseconds. -/
structure RetryTimer where
  delay : ℚ
  deriving DecidableEq

/-- The delayed re-initialization task scheduled by `recoverCamera`. -/
structure ReinitTask where
  delay : ℚ
  deriving DecidableEq

/-- One camera slot's configuration (`{url, name}` entries of
`cameraConfigs`). -/
structure CameraConfig where
  url : String
  name : String
  deriving DecidableEq

/-- Runtime state of one camera session (the `CameraData` record of
`CameraManager.js`).  `sid` models JS object identity of the session
object; `eventCleanups` / `videoEventCleanups` record whether the HLS
resp. video-element listeners are currently registered (the source keeps
arrays of cleanup closures; registered = non-empty). -/
structure CameraData where
  sid : Nat
  hls : Option HlsInstance
  element : Option VideoElement
  retryTimeout : Option RetryTimer
  initTimeout : Bool
  retryCount : Nat
  isDestroyed : Bool
  eventCleanups : Bool
  videoEventCleanups : Bool
  lastPlaybackTime : ℚ
  lastCheckTime : ℚ
  stallCount : Nat
  deriving DecidableEq

/-- `HEALTH_CHECK_INTERVAL_MS = 5000`. -/
def HEALTH_CHECK_INTERVAL_MS : ℚ := 5000

/-- `MAX_STALL_COUNT = 2`. -/
def MAX_STALL_COUNT : Nat := 2

/-- `SEQUENTIAL_TIMEOUT_MS = 15000`. -/
def SEQUENTIAL_TIMEOUT_MS : ℚ := 15000

/-- The stabilization delay in `initNextCamera`'s `onPlaying`
(`setTimeout(() => this.initNextCamera(), 500)`). -/
def STABILIZE_DELAY_MS : ℚ := 500

/-- `this.maxRetryDelay = 120000`. -/
def maxRetryDelay : ℚ := 120000

/-- `this.baseRetryDelay = 3000`. -/
def baseRetryDelay : ℚ := 3000

/-- `this.maxRetryAttempts = 10`. -/
def maxRetryAttempts : Nat := 10

/-- JS truthiness of a camera URL (`camera.url` as a condition): the
empty string is falsy. -/
def urlTruthy (u : String) : Bool := u ≠ ""

/-- JS truthiness of `hls.liveSyncPosition`: `undefined` and `0` are
falsy. -/
def liveSyncTruthy : Option ℚ → Bool
  | some q => q ≠ 0
  | none => false

/-- `cleanupHls(cameraData)` (lines 780-798): run and drop the stored HLS
event cleanups, then `stopLoad`/`detachMedia`/`destroy` the engine and
null the `hls` field.  On the session record this unregisters the HLS
listeners and drops the engine. -/
def cleanupHls (d : CameraData) : CameraData :=
  { d with eventCleanups := false, hls := none }

/-- Effect of `element.pause(); element.removeAttribute('src');
element.load()` on the sink (used by `recoverCamera`, `destroyCamera` and
`resumeAllStreams`). -/
def resetElement (e : VideoElement) : VideoElement :=
  { e with paused := true, hasSrc := false }

/-- `scheduleRetry(index, camera)` (lines 853-890) for the session `d`.
`j` stands for the sampled jitter `Math.random() * 1000`, so the caller
must supply `0 ≤ j < 1000`.  Returns the updated session together with
the timer that was scheduled (`none` when the destroyed-guard returned
early).  When `retryCount` has reached `maxRetryAttempts` a fixed
5-minute (300000 ms) cooldown is scheduled and the counter is reset;
otherwise the exponential-backoff delay
`min(baseRetryDelay * 1.5^retryCount + j, maxRetryDelay)` is used and the
counter is incremented. -/
def scheduleRetry (d : CameraData) (j : ℚ) : CameraData × Option RetryTimer :=
  if d.isDestroyed then (d, none)
  else
    let d := { d with retryTimeout := none }
    if d.retryCount ≥ maxRetryAttempts then
      let t : RetryTimer := ⟨300000⟩
      ({ d with retryCount := 0, retryTimeout := some t }, some t)
    else
      let baseDelay := baseRetryDelay * (3 / 2 : ℚ) ^ d.retryCount
      let retryDelay := min (baseDelay + j) maxRetryDelay
      let t : RetryTimer := ⟨retryDelay⟩
      ({ d with retryCount := d.retryCount + 1, retryTimeout := some t }, some t)

/-- C4: for a live (non-destroyed) session with `retryCount = n < 10`,
`scheduleRetry` schedules `min(3000 * 1.5^n + j, 120000)` ms with jitter
`j ∈ [0, 1000)`; for `n = 0,1,2,3` the delay lies in `[3000,4000)`,
`[4500,5500)`, `[6750,7750)`, `[10125,11125)` respectively, and it is
always `≤ 120000`.  When `retryCount` has reached 10, a fixed 300000 ms
cooldown is scheduled and the counter is reset to 0. -/
theorem scheduleRetry_backoff_spec (d : CameraData) (j : ℚ)
    (hd : d.isDestroyed = false) (hj0 : 0 ≤ j) (hj1 : j < 1000) :
    (d.retryCount < 10 →
      (scheduleRetry d j).2 =
        some ⟨min (3000 * (3 / 2 : ℚ) ^ d.retryCount + j) 120000⟩ ∧
      (∀ t, (scheduleRetry d j).2 = some t → t.delay ≤ 120000) ∧
      (d.retryCount = 0 → ∀ t, (scheduleRetry d j).2 = some t →
        3000 ≤ t.delay ∧ t.delay < 4000) ∧
      (d.retryCount = 1 → ∀ t, (scheduleRetry d j).2 = some t →
        4500 ≤ t.delay ∧ t.delay < 5500) ∧
      (d.retryCount = 2 → ∀ t, (scheduleRetry d j).2 = some t →
        6750 ≤ t.delay ∧ t.delay < 7750) ∧
      (d.retryCount = 3 → ∀ t, (scheduleRetry d j).2 = some t →
        10125 ≤ t.delay ∧ t.delay < 11125)) ∧
    (d.retryCount = 10 →
      (scheduleRetry d j).2 = some ⟨300000⟩ ∧
      (scheduleRetry d j).1.retryCount = 0) := by
  unfold scheduleRetry
  simp only [hd, Bool.false_eq_true, if_false]
  constructor
  · intro hlt
    have hnot : ¬ d.retryCount ≥ maxRetryAttempts := by
      simp only [maxRetryAttempts]; omega
    simp only [hnot, if_false, maxRetryDelay, baseRetryDelay]
    refine ⟨by trivial, ?_, ?_, ?_, ?_, ?_⟩
    · rintro t rfl'
      injection rfl' with h
      subst h
      exact min_le_right _ _
    all_goals
      rintro hn t ht
      injection ht with h
      subst h
      rw [hn]
      constructor
      · rw [le_min_iff]
        constructor <;> norm_num [hj0]
      · calc min (3000 * (3 / 2 : ℚ) ^ _ + j) 120000
            ≤ 3000 * (3 / 2 : ℚ) ^ _ + j := min_le_left _ _
        _ < _ := by norm_num; linarith
  · intro h10
    have hge : d.retryCount ≥ maxRetryAttempts := by
      simp only [maxRetryAttempts]; omega
    simp only [hge, if_true]
    constructor <;> trivial

/-- A concrete session used by several witnesses: a freshly created,
non-destroyed session. -/
def sampleSession : CameraData :=
  { sid := 0, hls := none, element := none, retryTimeout := none,
    initTimeout := false, retryCount := 0, isDestroyed := false,
    eventCleanups := false, videoEventCleanups := true,
    lastPlaybackTime := 0, lastCheckTime := 0, stallCount := 0 }

/-- Witness for C4 at `retryCount = 3`, jitter `j = 250`. -/
theorem scheduleRetry_backoff_spec_witness :
    ({ sampleSession with retryCount := 3 } : CameraData).isDestroyed = false ∧
    (0 : ℚ) ≤ 250 ∧ (250 : ℚ) < 1000 ∧
    (({ sampleSession with retryCount := 3 } : CameraData).retryCount < 10 →
      (scheduleRetry { sampleSession with retryCount := 3 } 250).2 =
        some ⟨min (3000 * (3 / 2 : ℚ) ^
          ({ sampleSession with retryCount := 3 } : CameraData).retryCount + 250) 120000⟩ ∧
      (∀ t, (scheduleRetry { sampleSession with retryCount := 3 } 250).2 = some t →
        t.delay ≤ 120000) ∧
      (({ sampleSession with retryCount := 3 } : CameraData).retryCount = 0 →
        ∀ t, (scheduleRetry { sampleSession with retryCount := 3 } 250).2 = some t →
        3000 ≤ t.delay ∧ t.delay < 4000) ∧
      (({ sampleSession with retryCount := 3 } : CameraData).retryCount = 1 →
        ∀ t, (scheduleRetry { sampleSession with retryCount := 3 } 250).2 = some t →
        4500 ≤ t.delay ∧ t.delay < 5500) ∧
      (({ sampleSession with retryCount := 3 } : CameraData).retryCount = 2 →
        ∀ t, (scheduleRetry { sampleSession with retryCount := 3 } 250).2 = some t →
        6750 ≤ t.delay ∧ t.delay < 7750) ∧
      (({ sampleSession with retryCount := 3 } : CameraData).retryCount = 3 →
        ∀ t, (scheduleRetry { sampleSession with retryCount := 3 } 250).2 = some t →
        10125 ≤ t.delay ∧ t.delay < 11125)) ∧
    (({ sampleSession with retryCount := 3 } : CameraData).retryCount = 10 →
      (scheduleRetry { sampleSession with retryCount := 3 } 250).2 = some ⟨300000⟩ ∧
      (scheduleRetry { sampleSession with retryCount := 3 } 250).1.retryCount = 0) := by
  refine ⟨rfl, by norm_num, by norm_num, ?_⟩
  exact scheduleRetry_backoff_spec { sampleSession with retryCount := 3 } 250 rfl
    (by norm_num) (by norm_num)

/-- `recoverCamera(index, camera)` (lines 246-278) acting on the session
`d`.  Resets the stall/retry tracking, fully cleans up the HLS engine,
pauses and clears the sink's source, and schedules re-initialization
after 1000 ms.  Returns the updated session together with the scheduled
task (`none` when the guard on a missing or destroyed session returned
early). -/
def recoverCamera (d : CameraData) : CameraData × Option ReinitTask :=
  if d.isDestroyed then (d, none)
  else
    let d := { d with stallCount := 0, lastPlaybackTime := 0,
                      lastCheckTime := 0, retryCount := 0 }
    let d := cleanupHls d
    let d := { d with element := d.element.map resetElement }
    (d, some ⟨1000⟩)

/-- The callback `recoverCamera` schedules (lines 272-277): when it fires
it re-runs the Stream Initializer for the slot iff the session is still
not destroyed and the page is visible. -/
def recoverReinitRuns (dAtFire : CameraData) (visibleAtFire : Bool) : Bool :=
  !dAtFire.isDestroyed && visibleAtFire

/-- C3: recovering a non-destroyed session establishes
`stallCount = 0`, `retryCount = 0`, `lastPlaybackTime = 0`,
`lastCheckTime = 0` and no stream engine attached, before the
re-initialization task is scheduled; that task has a 1000 ms delay and,
when it fires, re-initializes iff the session is still not destroyed and
the page is visible. -/
theorem recoverCamera_full_reset (d : CameraData) (hd : d.isDestroyed = false) :
    (recoverCamera d).1.stallCount = 0 ∧
    (recoverCamera d).1.retryCount = 0 ∧
    (recoverCamera d).1.lastPlaybackTime = 0 ∧
    (recoverCamera d).1.lastCheckTime = 0 ∧
    (recoverCamera d).1.hls = none ∧
    (recoverCamera d).2 = some ⟨1000⟩ ∧
    (∀ dAtFire vis, recoverReinitRuns dAtFire vis = true ↔
      dAtFire.isDestroyed = false ∧ vis = true) := by
  unfold recoverCamera cleanupHls
  simp only [hd, Bool.false_eq_true, if_false]
  refine ⟨by trivial, by trivial, by trivial, by trivial, by trivial,
    by trivial, ?_⟩
  intro dAtFire vis
  simp [recoverReinitRuns]

/-- A concrete non-destroyed session with dirty counters and an attached
engine, used by witnesses. -/
def dirtySession : CameraData :=
  { sampleSession with
    stallCount := 2, retryCount := 5, lastPlaybackTime := 7,
    lastCheckTime := 9, hls := some ⟨true, true⟩ }

/-- Witness for C3: the concrete non-destroyed session `dirtySession`. -/
theorem recoverCamera_full_reset_witness :
    dirtySession.isDestroyed = false ∧
    ((recoverCamera dirtySession).1.stallCount = 0 ∧
     (recoverCamera dirtySession).1.retryCount = 0 ∧
     (recoverCamera dirtySession).1.lastPlaybackTime = 0 ∧
     (recoverCamera dirtySession).1.lastCheckTime = 0 ∧
     (recoverCamera dirtySession).1.hls = none ∧
     (recoverCamera dirtySession).2 = some ⟨1000⟩ ∧
     (∀ dAtFire vis, recoverReinitRuns dAtFire vis = true ↔
       dAtFire.isDestroyed = false ∧ vis = true)) :=
  ⟨rfl, recoverCamera_full_reset dirtySession rfl⟩

/-- `cameraData.lastCheckTime || now` (line 161): `0` is falsy in JS, so a
zero timestamp is replaced by `now`. -/
def tickLastCheck (d : CameraData) (now : ℚ) : ℚ :=
  if d.lastCheckTime = 0 then now else d.lastCheckTime

/-- `timeSinceLastCheck = now - lastCheck` (line 162). -/
def tickTimeSince (d : CameraData) (now : ℚ) : ℚ := now - tickLastCheck d now

/-- `hasProgressed = Math.abs(currentTime - lastTime) > 0.1` (line 168). -/
def hasProgressedOn (d : CameraData) (e : VideoElement) : Prop :=
  |e.currentTime - d.lastPlaybackTime| > 1 / 10

/-- Line 183: `!hasHls && camera.url.endsWith('.m3u8')` — adaptive slot
whose engine is gone. -/
def engineMissingCond (d : CameraData) (cam : CameraConfig) : Prop :=
  d.hls = none ∧ cam.url.endsWith ".m3u8" = true

/-- Line 193: playing with enough data but no progress for a full tick
interval. -/
def stalledPlaybackCond (d : CameraData) (e : VideoElement) (now : ℚ) : Prop :=
  (e.paused = false ∧ e.ended = false) ∧ 2 ≤ e.readyState ∧
    ¬ hasProgressedOn d e ∧
    tickTimeSince d now ≥ HEALTH_CHECK_INTERVAL_MS - 500

/-- Line 203: not enough data while an engine is attached, for a full
tick interval. -/
def stuckLoadingCond (d : CameraData) (e : VideoElement) (now : ℚ) : Prop :=
  ¬ 2 ≤ e.readyState ∧ d.hls.isSome = true ∧
    tickTimeSince d now ≥ HEALTH_CHECK_INTERVAL_MS - 500

/-- Line 213: not playing while an engine is attached (unexpected
pause). -/
def unexpectedPauseCond (d : CameraData) (e : VideoElement) : Prop :=
  ¬ (e.paused = false ∧ e.ended = false) ∧ d.hls.isSome = true

instance (d : CameraData) (e : VideoElement) : Decidable (hasProgressedOn d e) := by
  unfold hasProgressedOn; exact inferInstance

instance (d : CameraData) (cam : CameraConfig) :
    Decidable (engineMissingCond d cam) := by
  unfold engineMissingCond; exact inferInstance

instance (d : CameraData) (e : VideoElement) (now : ℚ) :
    Decidable (stalledPlaybackCond d e now) := by
  unfold stalledPlaybackCond; exact inferInstance

instance (d : CameraData) (e : VideoElement) (now : ℚ) :
    Decidable (stuckLoadingCond d e now) := by
  unfold stuckLoadingCond; exact inferInstance

instance (d : CameraData) (e : VideoElement) :
    Decidable (unexpectedPauseCond d e) := by
  unfold unexpectedPauseCond; exact inferInstance

/-- The failure-classification chain of `checkAllCameraHealth` (lines
168-230): the tracking update (line 165) followed by the `else if` chain
in source order.  Returns the session after the chain together with
`needsRecovery`.  The lightweight `element.play()` resume attempt in the
unexpected-pause branch is asynchronous and only takes effect through
later events, so it does not change the session here. -/
def classifyHealth (d : CameraData) (cam : CameraConfig) (e : VideoElement)
    (now : ℚ) : CameraData × Bool :=
  let d1 := { d with lastCheckTime := now }
  if engineMissingCond d cam then (d1, true)
  else if e.hasError then (d1, true)
  else if stalledPlaybackCond d e now then
    let d2 := { d1 with stallCount := d1.stallCount + 1 }
    (d2, decide (d2.stallCount ≥ MAX_STALL_COUNT))
  else if stuckLoadingCond d e now then
    let d2 := { d1 with stallCount := d1.stallCount + 1 }
    (d2, decide (d2.stallCount ≥ MAX_STALL_COUNT))
  else if unexpectedPauseCond d e then
    let d2 := { d1 with stallCount := d1.stallCount + 1 }
    (d2, decide (d2.stallCount ≥ MAX_STALL_COUNT))
  else if hasProgressedOn d e then ({ d1 with stallCount := 0 }, false)
  else (d1, false)

/-- The body of `checkAllCameraHealth` (lines 142-239) for a single
camera: guards, the classification chain, the recovery call, and the
final `lastPlaybackTime` update (which the source performs *after* a
recovery call, line 237).  Returns the updated session and the number of
`recoverCamera` calls made (0 or 1).  The re-initialization task
scheduled by `recoverCamera` is tracked in the event-loop model. -/
def checkCameraHealth (d : CameraData) (cam : Option CameraConfig)
    (isInitializing : Bool) (now : ℚ) : CameraData × Nat :=
  if d.isDestroyed then (d, 0)
  else match cam with
  | none => (d, 0)
  | some cam =>
    if urlTruthy cam.url = false then (d, 0)
    else match d.element with
    | none => (d, 0)
    | some e =>
      if d.retryTimeout.isSome || isInitializing then (d, 0)
      else
        let classified := classifyHealth d cam e now
        if classified.2 then
          ({ (recoverCamera classified.1).1 with
             lastPlaybackTime := e.currentTime }, 1)
        else ({ classified.1 with lastPlaybackTime := e.currentTime }, 0)

/-- The `stalled` video-element event handler registered in
`createCameraElement` (lines 559-563): after the destroyed-check it
increments `stallCount` unconditionally and triggers nothing else. -/
def onStalledHandler (d : CameraData) : CameraData :=
  if d.isDestroyed then d else { d with stallCount := d.stallCount + 1 }

/-- C5 (amended): on a qualifying health-check tick (stall, stuck-loading
or unexpected-pause observed, and neither immediate-recovery condition
holds) for a session below the stall threshold, `stallCount` increases by
exactly 1; the tick makes at most one recovery call, makes none while the
incremented count is still below `MAX_STALL_COUNT`, and makes exactly one
— resetting `stallCount` and `retryCount` to 0 — when the incremented
count reaches it.  (The `stalled` element event can additionally grow
`stallCount` past the threshold without any recovery; see the
counterexample.) -/
theorem healthTick_stall_escalation (d : CameraData) (cam : CameraConfig)
    (e : VideoElement) (ii : Bool) (now : ℚ)
    (hd : d.isDestroyed = false) (hu : urlTruthy cam.url = true)
    (he : d.element = some e) (hr : d.retryTimeout = none) (hii : ii = false)
    (hem : ¬ engineMissingCond d cam) (herr : e.hasError = false)
    (hq : stalledPlaybackCond d e now ∨ stuckLoadingCond d e now ∨
      unexpectedPauseCond d e)
    (hs : d.stallCount < MAX_STALL_COUNT) :
    (checkCameraHealth d (some cam) ii now).2 ≤ 1 ∧
    (d.stallCount + 1 < MAX_STALL_COUNT →
      (checkCameraHealth d (some cam) ii now).2 = 0 ∧
      (checkCameraHealth d (some cam) ii now).1.stallCount = d.stallCount + 1) ∧
    (MAX_STALL_COUNT ≤ d.stallCount + 1 →
      (checkCameraHealth d (some cam) ii now).2 = 1 ∧
      (checkCameraHealth d (some cam) ii now).1.stallCount = 0 ∧
      (checkCameraHealth d (some cam) ii now).1.retryCount = 0) := by
  have hclass : classifyHealth d cam e now =
      ({ d with lastCheckTime := now, stallCount := d.stallCount + 1 },
        decide (MAX_STALL_COUNT ≤ d.stallCount + 1)) := by
    unfold classifyHealth
    rw [if_neg hem, if_neg (by simp [herr])]
    by_cases h1 : stalledPlaybackCond d e now
    · rw [if_pos h1]
    · rw [if_neg h1]
      by_cases h2 : stuckLoadingCond d e now
      · rw [if_pos h2]
      · rw [if_neg h2]
        rw [if_pos (show unexpectedPauseCond d e by tauto)]
  have hmain : checkCameraHealth d (some cam) ii now =
      (let dq : CameraData :=
        { d with lastCheckTime := now, stallCount := d.stallCount + 1 }
       if MAX_STALL_COUNT ≤ d.stallCount + 1 then
         ({ (recoverCamera dq).1 with lastPlaybackTime := e.currentTime }, 1)
       else ({ dq with lastPlaybackTime := e.currentTime }, 0)) := by
    unfold checkCameraHealth
    rw [if_neg (by simp [hd])]
    simp only [hu, he]
    rw [if_neg (by simp), if_neg (by simp [hr, hii])]
    simp only [hclass]
    by_cases h2 : MAX_STALL_COUNT ≤ d.stallCount + 1
    · rw [if_pos (decide_eq_true h2), if_pos h2, he]
    · rw [if_neg (by simpa using h2), if_neg h2, he]
  rw [hmain]
  by_cases h2 : MAX_STALL_COUNT ≤ d.stallCount + 1
  · rw [if_pos h2]
    refine ⟨le_refl 1, fun h => absurd h2 (not_le.mpr h), fun _ => ⟨rfl, ?_, ?_⟩⟩
    · simp [recoverCamera, cleanupHls, hd]
    · simp [recoverCamera, cleanupHls, hd]
  · rw [if_neg h2]
    exact ⟨Nat.zero_le 1, fun _ => ⟨rfl, rfl⟩, fun h => absurd h h2⟩

/-- The video element of a stalled-but-playing camera, used by the C5
witness. -/
def stalledElem : VideoElement := ⟨3, 42, false, false, 4, false, true, true⟩

/-- A session one stall short of the threshold observing `stalledElem`,
used by the C5 witness. -/
def stalledSession : CameraData :=
  { sampleSession with
    stallCount := 1, lastCheckTime := 1000, lastPlaybackTime := 42,
    hls := some ⟨true, true⟩, element := some stalledElem }

/-- An HLS camera configuration used by witnesses. -/
def hlsCamCfg : CameraConfig := ⟨"http://cam/stream.m3u8", "Cam 1"⟩

/-- Witness for C5: a concrete qualifying tick (stalled playback: playing,
enough data, no progress, full interval elapsed) on a session with
`stallCount = 1`, which reaches the threshold and triggers exactly one
recovery. -/
theorem healthTick_stall_escalation_witness :
    MAX_STALL_COUNT ≤ stalledSession.stallCount + 1 ∧
    ((checkCameraHealth stalledSession (some hlsCamCfg) false 6000).2 = 1 ∧
     (checkCameraHealth stalledSession (some hlsCamCfg) false 6000).1.stallCount = 0 ∧
     (checkCameraHealth stalledSession (some hlsCamCfg) false 6000).1.retryCount = 0) := by
  refine ⟨by decide, ?_⟩
  exact (healthTick_stall_escalation stalledSession hlsCamCfg stalledElem
    false 6000 rfl (by decide) rfl rfl rfl (by decide) rfl
    (Or.inl ⟨⟨rfl, rfl⟩, by decide,
      by norm_num [hasProgressedOn, stalledSession, stalledElem, sampleSession],
      by norm_num [tickTimeSince, tickLastCheck, stalledSession, sampleSession,
        HEALTH_CHECK_INTERVAL_MS]⟩) (by decide)).2.2 (by decide)

/-- Counterexample to C5 as stated: the `stalled` element event handler
also increments `stallCount`, outside any health-check tick; three such
events take a fresh session to `stallCount = 3 > MAX_STALL_COUNT` without
any recovery call ever being made. -/
theorem stallCount_exceeds_max_counterexample :
    (onStalledHandler (onStalledHandler (onStalledHandler
      sampleSession))).stallCount = 3 ∧
    MAX_STALL_COUNT <
      (onStalledHandler (onStalledHandler (onStalledHandler
        sampleSession))).stallCount := by
  constructor <;> decide

/-- The `MANIFEST_PARSED` handler of `initHlsStream` (lines 700-708):
after the destroyed-check it jumps to the live edge *unconditionally*
whenever `hls.liveSyncPosition` is truthy (`undefined` and `0` are
falsy), with no 5-second threshold and no liveness test. -/
def onManifestParsed (d : CameraData) (lsp : Option ℚ) : CameraData :=
  if d.isDestroyed then d
  else match lsp with
  | some pos =>
    if pos = 0 then d
    else { d with element := d.element.map (fun e => { e with currentTime := pos }) }
  | none => d

/-- The `LEVEL_LOADED` handler of `initHlsStream` (lines 722-736): for a
live stream with a truthy `liveSyncPosition`, seek to the live edge iff
the edge is more than 5 seconds ahead of the current position. -/
def onLevelLoaded (d : CameraData) (live : Bool) (lsp : Option ℚ) :
    CameraData :=
  if d.isDestroyed then d
  else match lsp with
  | some liveEdge =>
    if live = true ∧ liveEdge ≠ 0 then
      match d.element with
      | some e =>
        if liveEdge - e.currentTime > 5 then
          { d with element := some { e with currentTime := liveEdge } }
        else d
      | none => d
    else d
  | none => d

/-- C6 (amended): on `LEVEL_LOADED` for a live stream with a truthy live
edge, the playback position is seeked to the live edge iff the edge is
more than 5 seconds ahead, otherwise the session is unchanged; on
`MANIFEST_PARSED`, however, the position is set to the live edge
unconditionally whenever `liveSyncPosition` is truthy, even when the
stream is at most 5 seconds behind. -/
theorem liveEdgeSeek_spec (d : CameraData) (e : VideoElement) (live : Bool)
    (pos : ℚ) (hd : d.isDestroyed = false) (he : d.element = some e) :
    ((live = true → pos ≠ 0 → pos - e.currentTime > 5 →
       (onLevelLoaded d live (some pos)).element =
         some { e with currentTime := pos }) ∧
     (¬ (live = true ∧ pos ≠ 0 ∧ pos - e.currentTime > 5) →
       onLevelLoaded d live (some pos) = d) ∧
     onLevelLoaded d live none = d) ∧
    ((pos ≠ 0 → (onManifestParsed d (some pos)).element =
       some { e with currentTime := pos }) ∧
     (pos = 0 → onManifestParsed d (some pos) = d) ∧
     onManifestParsed d none = d) := by
  unfold onLevelLoaded onManifestParsed
  simp only [hd, Bool.false_eq_true, if_false, he]
  refine ⟨⟨?_, ?_, by trivial⟩, ?_, ?_, by trivial⟩
  · intro hlive hpos hgap
    rw [if_pos ⟨hlive, hpos⟩, if_pos hgap]
  · intro hnot
    by_cases h1 : live = true ∧ pos ≠ 0
    · rw [if_pos h1]
      have hgap : ¬ pos - e.currentTime > 5 := fun hgap =>
        hnot ⟨h1.1, h1.2, hgap⟩
      rw [if_neg hgap]
    · rw [if_neg h1]
  · intro hpos
    rw [if_neg hpos]
    simp
  · intro hpos
    rw [if_pos hpos]

/-- A video element only 2 seconds behind a live edge of 3, used for the
C6 counterexample. -/
def behindElem : VideoElement := ⟨11, 1, false, false, 4, false, true, true⟩

/-- A live session observing `behindElem`, used by the C6
counterexample. -/
def behindSession : CameraData :=
  { sampleSession with hls := some ⟨true, true⟩, element := some behindElem }

/-- Counterexample to C6 as stated: on `MANIFEST_PARSED` with a live edge
of 3 s and playback position 1 s — only 2 s behind, well within the
claimed 5-second tolerance — the playback position is still seeked to the
live edge, so the "seek iff more than 5 s behind" claim fails on the
manifest-parsed event. -/
theorem manifestParsed_seeks_within_5s_counterexample :
    (3 : ℚ) - behindElem.currentTime ≤ 5 ∧
    (onManifestParsed behindSession (some 3)).element =
      some { behindElem with currentTime := 3 } := by
  constructor
  · norm_num [behindElem]
  · decide

/-- Witness for C6: a live stream 19 seconds behind a live edge of 20 is
seeked forward on `LEVEL_LOADED`. -/
theorem liveEdgeSeek_spec_witness :
    behindSession.isDestroyed = false ∧
    behindSession.element = some behindElem ∧
    (((true = true → (20 : ℚ) ≠ 0 → (20 : ℚ) - behindElem.currentTime > 5 →
        (onLevelLoaded behindSession true (some 20)).element =
          some { behindElem with currentTime := 20 }) ∧
      (¬ (true = true ∧ (20 : ℚ) ≠ 0 ∧ (20 : ℚ) - behindElem.currentTime > 5) →
        onLevelLoaded behindSession true (some 20) = behindSession) ∧
      onLevelLoaded behindSession true none = behindSession) ∧
     (((20 : ℚ) ≠ 0 → (onManifestParsed behindSession (some 20)).element =
        some { behindElem with currentTime := 20 }) ∧
      ((20 : ℚ) = 0 → onManifestParsed behindSession (some 20) = behindSession) ∧
      onManifestParsed behindSession none = behindSession)) :=
  ⟨rfl, rfl, liveEdgeSeek_spec behindSession behindElem true 20 rfl rfl⟩

/-- The `Hls.ErrorTypes` classes the error handler distinguishes. -/
inductive HlsErrorType where
  | networkError
  | mediaError
  | otherError
  deriving DecidableEq

/-- The error payload delivered to the `ERROR` event handler: whether the
error is fatal and its class. -/
structure HlsErrorData where
  fatal : Bool
  etype : HlsErrorType
  deriving DecidableEq

/-- What the error handler instructed the engine to do in place. -/
inductive EngineAction where
  | noAction
  | startLoadAction
  | recoverMediaAction
  deriving DecidableEq

/-- `handleHlsError(index, camera, data)` (lines 806-846) acting on the
session `d`.  `j` is the jitter a possible `scheduleRetry` call samples;
`recoverMediaThrows` tells whether the engine's `recoverMediaError()`
throws.  Returns the updated session, the in-place action instructed on
the engine, and the retry timer scheduled by a `scheduleRetry` call
(`none` if no retry was scheduled).  `setPlaceholder` only touches a DOM
attribute and is not part of the session record. -/
def handleHlsError (d : CameraData) (data : HlsErrorData) (j : ℚ)
    (recoverMediaThrows : Bool) : CameraData × EngineAction × Option RetryTimer :=
  if d.isDestroyed then (d, EngineAction.noAction, none)
  else if data.fatal = false then (d, EngineAction.noAction, none)
  else
    match data.etype with
    | HlsErrorType.networkError =>
      match d.hls with
      | some h =>
        if d.retryCount < 3 then
          ({ d with hls := some { h with loading := true },
                    retryCount := d.retryCount + 1 },
           EngineAction.startLoadAction, none)
        else
          let r := scheduleRetry (cleanupHls d) j
          (r.1, EngineAction.noAction, r.2)
      | none =>
        let r := scheduleRetry (cleanupHls d) j
        (r.1, EngineAction.noAction, r.2)
    | HlsErrorType.mediaError =>
      match d.hls with
      | some _ =>
        if recoverMediaThrows then
          let r := scheduleRetry (cleanupHls d) j
          (r.1, EngineAction.recoverMediaAction, r.2)
        else (d, EngineAction.recoverMediaAction, none)
      | none => (d, EngineAction.noAction, none)
    | HlsErrorType.otherError =>
      let r := scheduleRetry (cleanupHls d) j
      (r.1, EngineAction.noAction, r.2)

/-- C7: on a fatal network-class error, a non-destroyed session with an
attached engine and `retryCount < 3` gets an in-place `startLoad` (no
teardown: the engine stays attached) and `retryCount` incremented by
exactly 1; with `retryCount ≥ 3` the engine is fully released
(`hls = none`) and a backoff retry is scheduled instead (with the usual
backoff delay while `retryCount < 10`). -/
theorem hlsNetworkError_recovery (d : CameraData) (h : HlsInstance)
    (data : HlsErrorData) (j : ℚ) (rmt : Bool)
    (hd : d.isDestroyed = false) (hh : d.hls = some h)
    (hf : data.fatal = true) (ht : data.etype = HlsErrorType.networkError) :
    (d.retryCount < 3 →
      (handleHlsError d data j rmt).1.hls = some { h with loading := true } ∧
      (handleHlsError d data j rmt).1.retryCount = d.retryCount + 1 ∧
      (handleHlsError d data j rmt).2.1 = EngineAction.startLoadAction ∧
      (handleHlsError d data j rmt).2.2 = none) ∧
    (3 ≤ d.retryCount →
      (handleHlsError d data j rmt).1.hls = none ∧
      (handleHlsError d data j rmt).2.2.isSome = true ∧
      (d.retryCount < 10 →
        (handleHlsError d data j rmt).2.2 =
          some ⟨min (3000 * (3 / 2 : ℚ) ^ d.retryCount + j) 120000⟩)) := by
  unfold handleHlsError
  simp only [hd, Bool.false_eq_true, if_false, hf, Bool.true_eq_false, ht, hh]
  constructor
  · intro hlt
    rw [if_pos hlt]
    exact ⟨rfl, rfl, rfl, rfl⟩
  · intro hge
    rw [if_neg (by omega)]
    refine ⟨?_, ?_, ?_⟩
    · simp only [scheduleRetry, cleanupHls]
      by_cases hmax : d.retryCount ≥ maxRetryAttempts <;> simp [hmax, hd]
    · simp only [scheduleRetry, cleanupHls]
      by_cases hmax : d.retryCount ≥ maxRetryAttempts <;> simp [hmax, hd]
    · intro hlt10
      have hmax : ¬ d.retryCount ≥ maxRetryAttempts := by
        simp only [maxRetryAttempts]; omega
      simp [scheduleRetry, cleanupHls, hd, hmax, baseRetryDelay, maxRetryDelay]

/-- Witness for C7, exercised at `retryCount = 1` (in-place recovery,
count becomes 2) on the session `behindSession` with its attached
engine. -/
theorem hlsNetworkError_recovery_witness :
    ({ behindSession with retryCount := 1 } : CameraData).isDestroyed = false ∧
    ({ behindSession with retryCount := 1 } : CameraData).hls = some ⟨true, true⟩ ∧
    (⟨true, HlsErrorType.networkError⟩ : HlsErrorData).fatal = true ∧
    (⟨true, HlsErrorType.networkError⟩ : HlsErrorData).etype =
      HlsErrorType.networkError ∧
    ((({ behindSession with retryCount := 1 } : CameraData).retryCount < 3 →
      (handleHlsError { behindSession with retryCount := 1 }
        ⟨true, HlsErrorType.networkError⟩ 0 false).1.hls =
          some ⟨true, true⟩ ∧
      (handleHlsError { behindSession with retryCount := 1 }
        ⟨true, HlsErrorType.networkError⟩ 0 false).1.retryCount =
          ({ behindSession with retryCount := 1 } : CameraData).retryCount + 1 ∧
      (handleHlsError { behindSession with retryCount := 1 }
        ⟨true, HlsErrorType.networkError⟩ 0 false).2.1 =
          EngineAction.startLoadAction ∧
      (handleHlsError { behindSession with retryCount := 1 }
        ⟨true, HlsErrorType.networkError⟩ 0 false).2.2 = none) ∧
     (3 ≤ ({ behindSession with retryCount := 1 } : CameraData).retryCount →
      (handleHlsError { behindSession with retryCount := 1 }
        ⟨true, HlsErrorType.networkError⟩ 0 false).1.hls = none ∧
      (handleHlsError { behindSession with retryCount := 1 }
        ⟨true, HlsErrorType.networkError⟩ 0 false).2.2.isSome = true ∧
      (({ behindSession with retryCount := 1 } : CameraData).retryCount < 10 →
        (handleHlsError { behindSession with retryCount := 1 }
          ⟨true, HlsErrorType.networkError⟩ 0 false).2.2 =
            some ⟨min (3000 * (3 / 2 : ℚ) ^
              ({ behindSession with retryCount := 1 } : CameraData).retryCount + 0)
              120000⟩))) :=
  ⟨rfl, rfl, rfl, rfl,
    hlsNetworkError_recovery { behindSession with retryCount := 1 } ⟨true, true⟩
      ⟨true, HlsErrorType.networkError⟩ 0 false rfl rfl rfl rfl⟩

/-- `this.config` of the manager: grid dimensions and camera count. -/
structure GridConfig where
  columns : Nat
  rows : Nat
  numCameras : Nat
  deriving DecidableEq

/-- Browser capabilities read by the Stream Initializer:
`Hls.isSupported()` and
`element.canPlayType('application/vnd.apple.mpegurl')`. -/
structure BrowserEnv where
  hlsSupported : Bool
  canPlayNativeHls : Bool
  deriving DecidableEq

/-- Manager-level mutable state of `CameraManager`.  The `cameras` map is
an association list from slot index to session; `healthCheckActive`
stands for `healthCheckInterval !== null`; `nextId` feeds the `sid`/`eid`
allocation ids that model JS object identity. -/
structure ManagerState where
  cameras : List (Nat × CameraData)
  cameraConfigs : List CameraConfig
  config : GridConfig
  isPageVisible : Bool
  isHDMode : Bool
  healthCheckActive : Bool
  isInitializing : Bool
  nextId : Nat
  deriving DecidableEq

/-- In-place replacement of the session stored at key `i` (mutating the
record held in `this.cameras`, as JS `Map.set` on an existing key
does). -/
def setEntry : List (Nat × CameraData) → Nat → CameraData → List (Nat × CameraData)
  | [], _, _ => []
  | p :: t, i, d => if p.1 = i then (i, d) :: t else p :: setEntry t i d

/-- `this.cameras.set(index, cameraData)`: replace or append. -/
def mapSet (l : List (Nat × CameraData)) (i : Nat) (d : CameraData) :
    List (Nat × CameraData) :=
  if (l.lookup i).isSome then setEntry l i d else l ++ [(i, d)]

theorem lookup_setEntry_self (l : List (Nat × CameraData)) (i : Nat)
    (d d0 : CameraData) (hl : l.lookup i = some d0) :
    (setEntry l i d).lookup i = some d := by
  induction l with
  | nil => simp [List.lookup] at hl
  | cons p t ih =>
    rcases p with ⟨k, v⟩
    by_cases hp : k = i
    · subst hp
      simp [setEntry, List.lookup]
    · have hne : (i == k) = false := by
        simpa using fun h => hp h.symm
      simp only [List.lookup, hne] at hl
      simp only [setEntry, if_neg hp, List.lookup, hne]
      exact ih hl

/-- Per-session effect of `pauseAllStreams` (lines 283-312) on a
non-destroyed session: clear any pending retry, `hls.stopLoad()` without
destroying the engine, and pause the sink. -/
def pauseCameraEntry (d : CameraData) : CameraData :=
  if d.isDestroyed then d
  else
    { d with retryTimeout := none,
             hls := d.hls.map (fun h => { h with loading := false }),
             element := d.element.map (fun e => { e with paused := true }) }

/-- `pauseAllStreams()` (lines 283-312): stop the health monitor and
pause every non-destroyed session. -/
def pauseAllStreams (s : ManagerState) : ManagerState :=
  { s with healthCheckActive := false,
           cameras := s.cameras.map (fun p => (p.1, pauseCameraEntry p.2)) }

/-- The hidden branch of the `visibilitychange` handler (lines 98-110):
`isPageVisible := false`, then `pauseAllStreams()` and
`stopHealthMonitor()` (the latter is already performed inside
`pauseAllStreams`).  The visible branch (resume) is not needed by the
claims about hiding. -/
def onVisibilityHidden (s : ManagerState) : ManagerState :=
  pauseAllStreams { s with isPageVisible := false }

/-- `checkAllCameraHealth()` (lines 142-239) at manager level: the
visibility guard (line 143), then one `checkCameraHealth` evaluation per
registered session.  Returns the new state and the total number of
recovery calls. -/
def checkAllCameraHealth (s : ManagerState) (now : ℚ) : ManagerState × Nat :=
  if s.isPageVisible = false then (s, 0)
  else
    let results := s.cameras.map (fun p =>
      let r := checkCameraHealth p.2 (s.cameraConfigs.get? p.1) s.isInitializing now
      ((p.1, r.1), r.2))
    ({ s with cameras := results.map Prod.fst },
     (results.map Prod.snd).foldl (· + ·) 0)

/-- C9: when the page becomes hidden, every non-destroyed session's
engine receives a stop-load (`loading := false`) but stays attached and
present (the `hls` handle is not destroyed or detached), its sink is
paused, and the health monitor stops; no health check runs while the page
is not visible. -/
theorem visibilityHidden_pauses_streams (s : ManagerState) (i : Nat)
    (d : CameraData) (hl : s.cameras.lookup i = some d)
    (hd : d.isDestroyed = false) :
    (onVisibilityHidden s).isPageVisible = false ∧
    (onVisibilityHidden s).healthCheckActive = false ∧
    (onVisibilityHidden s).cameras.lookup i = some (pauseCameraEntry d) ∧
    (∀ h, d.hls = some h →
      (pauseCameraEntry d).hls = some { h with loading := false }) ∧
    (d.hls = none → (pauseCameraEntry d).hls = none) ∧
    (∀ e, d.element = some e →
      (pauseCameraEntry d).element = some { e with paused := true }) ∧
    (∀ now, checkAllCameraHealth (onVisibilityHidden s) now =
      (onVisibilityHidden s, 0)) := by
  have hlook : ∀ (l : List (Nat × CameraData)) (f : CameraData → CameraData),
      l.lookup i = some d → (l.map (fun p => (p.1, f p.2))).lookup i = some (f d) := by
    intro l f
    induction l with
    | nil => simp [List.lookup]
    | cons p t ih =>
      rcases p with ⟨k, v⟩
      by_cases hp : i = k
      · subst hp
        simp only [List.lookup, beq_self_eq_true, List.map_cons]
        intro h
        injection h with h
        rw [h]
      · have hne : (i == k) = false := by simpa using hp
        simp only [List.lookup, hne, List.map_cons]
        exact ih
  refine ⟨rfl, rfl, ?_, ?_, ?_, ?_, ?_⟩
  · exact hlook s.cameras pauseCameraEntry hl
  · intro h hh
    simp [pauseCameraEntry, hd, hh]
  · intro hh
    simp [pauseCameraEntry, hd, hh]
  · intro e hh
    simp [pauseCameraEntry, hd, hh]
  · intro now
    have hvis : (onVisibilityHidden s).isPageVisible = false := rfl
    unfold checkAllCameraHealth
    rw [if_pos hvis]

/-- A concrete manager state with one playing session, used by the C9
witness. -/
def playingManager : ManagerState :=
  { cameras := [(0, behindSession)],
    cameraConfigs := [hlsCamCfg],
    config := ⟨1, 1, 1⟩,
    isPageVisible := true, isHDMode := false,
    healthCheckActive := true, isInitializing := false, nextId := 12 }

/-- Witness for C9 on `playingManager`. -/
theorem visibilityHidden_pauses_streams_witness :
    playingManager.cameras.lookup 0 = some behindSession ∧
    behindSession.isDestroyed = false ∧
    ((onVisibilityHidden playingManager).isPageVisible = false ∧
     (onVisibilityHidden playingManager).healthCheckActive = false ∧
     (onVisibilityHidden playingManager).cameras.lookup 0 =
       some (pauseCameraEntry behindSession) ∧
     (∀ h, behindSession.hls = some h →
       (pauseCameraEntry behindSession).hls = some { h with loading := false }) ∧
     (behindSession.hls = none → (pauseCameraEntry behindSession).hls = none) ∧
     (∀ e, behindSession.element = some e →
       (pauseCameraEntry behindSession).element = some { e with paused := true }) ∧
     (∀ now, checkAllCameraHealth (onVisibilityHidden playingManager) now =
       (onVisibilityHidden playingManager, 0))) :=
  ⟨rfl, rfl, visibilityHidden_pauses_streams playingManager 0 behindSession rfl rfl⟩

/-- `initHlsStream(index, camera)` (lines 674-764) acting on the session:
clean up any existing engine, construct a fresh `Hls` instance, register
the five event handlers (`eventCleanups := true`), `loadSource` with a
cache-busting URL (`loading := true`) and `attachMedia`
(`attached := true`).  Playback start, retry-count reset and error
handling arrive through the registered events. -/
def initHlsStream (d : CameraData) : CameraData :=
  if d.isDestroyed then d
  else
    let d := cleanupHls d
    { d with hls := some ⟨true, true⟩, eventCleanups := true }

/-- `initializeStream(index, camera)` (lines 624-667) acting on the
session: guards on a destroyed session and a hidden page, then branches
on the URL scheme.  Direct playback paths set the sink's source; the
asynchronous `play()` results arrive via the element's `playing`/`error`
events. -/
def initializeStream (d : CameraData) (camera : CameraConfig) (visible : Bool)
    (env : BrowserEnv) : CameraData :=
  if d.isDestroyed then d
  else if visible = false then d
  else if camera.url.startsWith "rtsp://" then
    { d with element := d.element.map (fun e => { e with hasSrc := true }) }
  else if camera.url.endsWith ".m3u8" then
    if env.hlsSupported then initHlsStream d
    else if env.canPlayNativeHls then
      { d with element := d.element.map (fun e => { e with hasSrc := true }) }
    else d
  else { d with element := d.element.map (fun e => { e with hasSrc := true }) }

/-- Manager-level `initializeStream`: the `this.cameras.get(index)`
lookup followed by the per-session initializer. -/
def initializeStreamM (s : ManagerState) (index : Nat) (camera : CameraConfig)
    (env : BrowserEnv) : ManagerState :=
  match s.cameras.lookup index with
  | none => s
  | some d =>
    let d2 := initializeStream d camera s.isPageVisible env
    { s with cameras := setEntry s.cameras index d2 }

/-- `destroyCamera(index)` (lines 933-974) acting on the session record:
set the terminal flag, clear both timers, clean up the engine and its
listeners, remove the video-element listeners, pause and clear the sink,
and zero the counters. -/
def destroyCameraData (d : CameraData) : CameraData :=
  let d := { d with isDestroyed := true, retryTimeout := none, initTimeout := false }
  let d := cleanupHls d
  let d := { d with videoEventCleanups := false }
  let d := { d with element := d.element.map resetElement }
  { d with retryCount := 0, stallCount := 0, lastPlaybackTime := 0, lastCheckTime := 0 }

/-- Manager-level `destroyCamera(index)`: no-op on an unknown index
(`if (!cameraData) return`). -/
def destroyCamera (s : ManagerState) (index : Nat) : ManagerState :=
  match s.cameras.lookup index with
  | none => s
  | some d => { s with cameras := setEntry s.cameras index (destroyCameraData d) }

/-- `createCameraElement(index, camera, false)` (lines 534-617) as used
by `setupGrid`: allocate a fresh video element and a brand-new session
record (fresh `sid`/`eid` model the `new` allocations), register the four
video-element listeners, and store it under the slot index.  Stream
initialization is deferred to the Sequencer. -/
def createCameraElement (s : ManagerState) (index : Nat) : ManagerState :=
  let elem : VideoElement :=
    { eid := s.nextId, currentTime := 0, paused := true, ended := false,
      readyState := 0, hasError := false, hasSrc := false, inGrid := true }
  let d : CameraData :=
    { sid := s.nextId, hls := none, element := some elem, retryTimeout := none,
      initTimeout := false, retryCount := 0, isDestroyed := false,
      eventCleanups := false, videoEventCleanups := true,
      lastPlaybackTime := 0, lastCheckTime := 0, stallCount := 0 }
  { s with cameras := mapSet s.cameras index d, nextId := s.nextId + 1 }

/-- `destroyAllCameras()` (lines 979-993): clear the init queue flags,
destroy every registered camera, empty the grid container and clear the
map. -/
def destroyAllCameras (s : ManagerState) : ManagerState :=
  let s := { s with isInitializing := false }
  let s := (s.cameras.map Prod.fst).foldl (fun s i => destroyCamera s i) s
  { s with cameras := [] }

/-- The registry-rebuilding part of `setupGrid()` (lines 401-445):
destroy all cameras, then create an element for every slot
`i < min(columns*rows, numCameras)` that has a configuration entry.  The
subsequent stream kick-off (HD: all at once; kiosk: `sequentialInit`) is
modelled by the Sequencer timeline. -/
def setupGrid (s : ManagerState) : ManagerState :=
  let s := destroyAllCameras s
  let totalCells := s.config.columns * s.config.rows
  (List.range (min totalCells s.config.numCameras)).foldl
    (fun s i => if (s.cameraConfigs.get? i).isSome then createCameraElement s i
                else s) s

/-- `applySettings(index)` (lines 911-927): destroy the slot, and if its
video element is still in the grid, clear the `isDestroyed` flag and the
retry counter *on the same session record* and re-initialize when a URL
is configured; otherwise rebuild the whole grid. -/
def applySettings (s : ManagerState) (index : Nat) (env : BrowserEnv) :
    ManagerState :=
  match s.cameraConfigs.get? index with
  | none => s
  | some camera =>
    let s := destroyCamera s index
    match s.cameras.lookup index with
    | some d =>
      if (d.element.map (fun e => e.inGrid)).getD false then
        let d2 := { d with isDestroyed := false, retryCount := 0 }
        let s2 := { s with cameras := setEntry s.cameras index d2 }
        if urlTruthy camera.url then initializeStreamM s2 index camera env else s2
      else setupGrid s
    | none => setupGrid s

theorem initializeStream_preserves_id (d : CameraData) (camera : CameraConfig)
    (visible : Bool) (env : BrowserEnv) :
    (initializeStream d camera visible env).sid = d.sid ∧
    (initializeStream d camera visible env).isDestroyed = d.isDestroyed := by
  unfold initializeStream initHlsStream cleanupHls
  split_ifs <;> simp

/-- C1 (amended): `destroyCamera` marks the session record destroyed
without replacing it; but `applySettings` on a slot whose element is
still in the grid *revives the same session object* — it resets
`isDestroyed` to `false` (and `retryCount` to 0) on the record it just
destroyed, as witnessed by the preserved allocation id.  Only the
grid-rebuild path creates brand-new session objects. -/
theorem applySettings_revives_same_session (s : ManagerState) (index : Nat)
    (camera : CameraConfig) (d : CameraData) (e : VideoElement)
    (env : BrowserEnv)
    (hc : s.cameraConfigs.get? index = some camera)
    (hl : s.cameras.lookup index = some d)
    (he : d.element = some e) (hg : e.inGrid = true) :
    (destroyCameraData d).isDestroyed = true ∧
    (destroyCameraData d).sid = d.sid ∧
    ∃ d2, (applySettings s index env).cameras.lookup index = some d2 ∧
      d2.sid = d.sid ∧ d2.isDestroyed = false := by
  refine ⟨rfl, rfl, ?_⟩
  have hdestroy : destroyCamera s index =
      { s with cameras := setEntry s.cameras index (destroyCameraData d) } := by
    unfold destroyCamera
    rw [hl]
  have hl2 : (setEntry s.cameras index (destroyCameraData d)).lookup index =
      some (destroyCameraData d) := lookup_setEntry_self _ _ _ _ hl
  have hel : (destroyCameraData d).element = some (resetElement e) := by
    simp [destroyCameraData, cleanupHls, he]
  have hgd : (((destroyCameraData d).element.map
      (fun e => e.inGrid)).getD false) = true := by
    rw [hel]
    simpa [resetElement] using hg
  unfold applySettings
  rw [hc]
  simp only [hdestroy]
  rw [hl2]  -- this rewrites the lookup under the match scrutinee
  simp only [hgd, if_true]
  set dr : CameraData :=
    { destroyCameraData d with isDestroyed := false, retryCount := 0 } with hdr
  have hl3 : (setEntry (setEntry s.cameras index (destroyCameraData d))
      index dr).lookup index = some dr :=
    lookup_setEntry_self _ _ _ _ hl2
  by_cases hu : urlTruthy camera.url
  · rw [if_pos hu]
    unfold initializeStreamM
    simp only [hl3]
    refine ⟨initializeStream dr camera s.isPageVisible env, ?_, ?_, ?_⟩
    · exact lookup_setEntry_self _ _ _ _ hl3
    · exact (initializeStream_preserves_id dr camera s.isPageVisible env).1
    · exact (initializeStream_preserves_id dr camera s.isPageVisible env).2
  · rw [if_neg hu]
    exact ⟨dr, hl3, rfl, rfl⟩

/-- A session that has already been destroyed while its element remains
in the grid, used by the C1 counterexample and witness. -/
def destroyedSession : CameraData :=
  { sid := 5, hls := none,
    element := some ⟨7, 0, true, false, 0, false, false, true⟩,
    retryTimeout := none, initTimeout := false, retryCount := 0,
    isDestroyed := true, eventCleanups := false, videoEventCleanups := false,
    lastPlaybackTime := 0, lastCheckTime := 0, stallCount := 0 }

/-- A manager holding `destroyedSession` in slot 0 with an empty URL
configured for that slot. -/
def destroyedManager : ManagerState :=
  { cameras := [(0, destroyedSession)], cameraConfigs := [⟨"", "Cam 1"⟩],
    config := ⟨1, 1, 1⟩, isPageVisible := true, isHDMode := false,
    healthCheckActive := false, isInitializing := false, nextId := 12 }

/-- Counterexample to C1 as stated: re-applying settings for slot 0 of
`destroyedManager` resets `isDestroyed` to `false` on the *same* session
object (the allocation id 5 is preserved; no brand-new record is
created), so the destroyed flag is not irreversible. -/
theorem destroyed_flag_reset_counterexample :
    destroyedSession.isDestroyed = true ∧
    (applySettings destroyedManager 0 ⟨true, false⟩).cameras.lookup 0 =
      some { destroyedSession with isDestroyed := false } ∧
    ({ destroyedSession with isDestroyed := false } : CameraData).sid =
      destroyedSession.sid := by
  refine ⟨rfl, ?_, rfl⟩
  decide

/-- Witness for C1 (amended) at the concrete `destroyedManager`. -/
theorem applySettings_revives_same_session_witness :
    destroyedManager.cameraConfigs.get? 0 = some ⟨"", "Cam 1"⟩ ∧
    destroyedManager.cameras.lookup 0 = some destroyedSession ∧
    destroyedSession.element = some ⟨7, 0, true, false, 0, false, false, true⟩ ∧
    (⟨7, 0, true, false, 0, false, false, true⟩ : VideoElement).inGrid = true ∧
    ((destroyCameraData destroyedSession).isDestroyed = true ∧
     (destroyCameraData destroyedSession).sid = destroyedSession.sid ∧
     ∃ d2, (applySettings destroyedManager 0 ⟨true, false⟩).cameras.lookup 0 =
         some d2 ∧
       d2.sid = destroyedSession.sid ∧ d2.isDestroyed = false) :=
  ⟨rfl, rfl, rfl, rfl,
    applySettings_revives_same_session destroyedManager 0 ⟨"", "Cam 1"⟩
      destroyedSession ⟨7, 0, true, false, 0, false, false, true⟩
      ⟨true, false⟩ rfl rfl rfl rfl⟩

/-- `clamp(value, min, max)` (helpers.js lines 823-825):
`Math.min(Math.max(value, min), max)`. -/
def clamp (value lo hi : ℤ) : ℤ := min (max value lo) hi

/-- The `{columns, rows}` record returned by `calculateGridLayout`. -/
structure GridLayout where
  columns : ℤ
  rows : ℤ
  deriving DecidableEq

/-- `calculateGridLayout(numItems)` (helpers.js lines 832-848): clamp to
1..18, pick a column count from the threshold table, and set
`rows = Math.ceil(numItems / columns)`. -/
def calculateGridLayout (numItems : ℤ) : GridLayout :=
  let n := clamp numItems 1 18
  let columns : ℤ :=
    if n ≤ 1 then 1
    else if n ≤ 2 then 2
    else if n ≤ 4 then 2
    else if n ≤ 6 then 3
    else if n ≤ 9 then 3
    else if n ≤ 12 then 4
    else if n ≤ 16 then 4
    else 6
  { columns := columns, rows := ⌈(n : ℚ) / (columns : ℚ)⌉ }

/-- The `while` loop of `updateGridLayout` (lines 1051-1056): pad
`cameraConfigs` with fresh empty-URL entries up to `n` slots. -/
def padConfigs (cs : List CameraConfig) (n : Nat) : List CameraConfig :=
  cs ++ (List.range (n - cs.length)).map
    (fun k => ⟨"", "Camera " ++ toString (cs.length + k + 1)⟩)

/-- `updateGridLayout(numCameras)` (lines 1047-1059): clamp the count,
compute the layout, pad the configurations, and store the new grid
configuration. -/
def updateGridLayout (s : ManagerState) (numCameras : ℤ) : ManagerState :=
  let n := clamp numCameras 1 18
  let l := calculateGridLayout n
  { s with cameraConfigs := padConfigs s.cameraConfigs n.toNat,
           config := ⟨l.columns.toNat, l.rows.toNat, n.toNat⟩ }

/-- The index set of `setupGrid`'s element-creation loop (line 420):
`i < totalCells && i < numCameras`, skipping slots without a
configuration entry; this is exactly the set of slots `setupGrid` builds
a cell for. -/
def setupGridIndices (cfg : GridConfig) (numConfigs : Nat) : List Nat :=
  (List.range (min (cfg.columns * cfg.rows) cfg.numCameras)).filter
    (fun i => i < numConfigs)

theorem clamp_idem (v : ℤ) : clamp (clamp v 1 18) 1 18 = clamp v 1 18 := by
  simp only [clamp]
  omega

theorem padConfigs_length (cs : List CameraConfig) (n : Nat) :
    n ≤ (padConfigs cs n).length := by
  simp [padConfigs]
  omega

theorem setupGridIndices_complete (cfg : GridConfig) (numConfigs : Nat)
    (hcells : cfg.numCameras ≤ cfg.columns * cfg.rows)
    (hlen : cfg.numCameras ≤ numConfigs) :
    setupGridIndices cfg numConfigs = List.range cfg.numCameras := by
  unfold setupGridIndices
  rw [min_eq_right hcells]
  apply List.filter_eq_self.mpr
  intro a ha
  simp only [List.mem_range] at ha
  simpa using lt_of_lt_of_le ha hlen

theorem calculateGridLayout_clamp (v : ℤ) :
    calculateGridLayout (clamp v 1 18) = calculateGridLayout v := by
  unfold calculateGridLayout
  rw [clamp_idem]

theorem ceil_cover (m c : ℤ) (hc : 0 < c) : m ≤ c * ⌈(m : ℚ) / (c : ℚ)⌉ := by
  have h1 : (m : ℚ) / (c : ℚ) ≤ (⌈(m : ℚ) / (c : ℚ)⌉ : ℚ) := Int.le_ceil _
  have hc0 : (0 : ℚ) < (c : ℚ) := by exact_mod_cast hc
  rw [div_le_iff₀ hc0] at h1
  have h2 : (m : ℚ) ≤ (c : ℚ) * (⌈(m : ℚ) / (c : ℚ)⌉ : ℚ) := by linarith
  exact_mod_cast h2

/-- C10: for every integer `numItems`, `calculateGridLayout` returns
`columns ∈ {1,2,3,4,6}` and `rows = ⌈clamp(numItems,1,18)/columns⌉`, so
`columns * rows ≥ clamp(numItems,1,18)`; consequently, after
`updateGridLayout`, `setupGrid`'s creation loop covers every slot below
the clamped camera count — no configured slot is dropped for lack of
cells. -/
theorem calculateGridLayout_sound (numItems : ℤ) (s : ManagerState) :
    ((calculateGridLayout numItems).columns = 1 ∨
     (calculateGridLayout numItems).columns = 2 ∨
     (calculateGridLayout numItems).columns = 3 ∨
     (calculateGridLayout numItems).columns = 4 ∨
     (calculateGridLayout numItems).columns = 6) ∧
    (calculateGridLayout numItems).rows =
      ⌈((clamp numItems 1 18 : ℤ) : ℚ) /
        ((calculateGridLayout numItems).columns : ℚ)⌉ ∧
    clamp numItems 1 18 ≤
      (calculateGridLayout numItems).columns *
        (calculateGridLayout numItems).rows ∧
    setupGridIndices (updateGridLayout s numItems).config
        (updateGridLayout s numItems).cameraConfigs.length =
      List.range (updateGridLayout s numItems).config.numCameras := by
  have hm1 : (1 : ℤ) ≤ clamp numItems 1 18 :=
    le_min (le_max_right _ _) (by norm_num)
  have hcolpos : 0 < (calculateGridLayout numItems).columns := by
    unfold calculateGridLayout
    simp only
    split_ifs <;> norm_num
  have hrows : (calculateGridLayout numItems).rows =
      ⌈((clamp numItems 1 18 : ℤ) : ℚ) /
        ((calculateGridLayout numItems).columns : ℚ)⌉ := rfl
  have hcover : clamp numItems 1 18 ≤
      (calculateGridLayout numItems).columns *
        (calculateGridLayout numItems).rows := by
    rw [hrows]
    exact ceil_cover _ _ hcolpos
  have hrowpos : 0 < (calculateGridLayout numItems).rows := by
    by_contra hr
    push_neg at hr
    have : (calculateGridLayout numItems).columns *
        (calculateGridLayout numItems).rows ≤ 0 :=
      mul_nonpos_of_nonneg_of_nonpos (le_of_lt hcolpos) hr
    omega
  refine ⟨?_, hrows, hcover, ?_⟩
  · unfold calculateGridLayout
    simp only
    split_ifs <;> norm_num
  · have hcfg : (updateGridLayout s numItems).config =
        ⟨(calculateGridLayout numItems).columns.toNat,
         (calculateGridLayout numItems).rows.toNat,
         (clamp numItems 1 18).toNat⟩ := by
      simp only [updateGridLayout]
      rw [calculateGridLayout_clamp]
    have hconfigs : (updateGridLayout s numItems).cameraConfigs =
        padConfigs s.cameraConfigs (clamp numItems 1 18).toNat := rfl
    rw [hcfg, hconfigs]
    apply setupGridIndices_complete
    · show (clamp numItems 1 18).toNat ≤
        (calculateGridLayout numItems).columns.toNat *
          (calculateGridLayout numItems).rows.toNat
      have h4 : (clamp numItems 1 18).toNat ≤
          ((calculateGridLayout numItems).columns *
            (calculateGridLayout numItems).rows).toNat :=
        Int.toNat_le_toNat hcover
      have h5 : ((calculateGridLayout numItems).columns *
          (calculateGridLayout numItems).rows).toNat =
          (calculateGridLayout numItems).columns.toNat *
            (calculateGridLayout numItems).rows.toNat := by
        have hc0 := le_of_lt hcolpos
        have hr0 := le_of_lt hrowpos
        lift (calculateGridLayout numItems).columns to ℕ using hc0 with cn
        lift (calculateGridLayout numItems).rows to ℕ using hr0 with rn
        rw [← Nat.cast_mul, Int.toNat_natCast, Int.toNat_natCast,
          Int.toNat_natCast]
      rw [h5] at h4
      exact h4
    · show (clamp numItems 1 18).toNat ≤
        (padConfigs s.cameraConfigs (clamp numItems 1 18).toNat).length
      exact padConfigs_length _ _

/-! ## Event-loop model for a single session

The callbacks `CameraManager` registers for one slot, and the state they
can observe, as one step relation.  A timer that has been cleared (or has
fired) is `none`/`false`; an event listener that has been removed no
longer fires.  `queueAdvances` counts invocations of `initNextCamera`
(shared sequencing state), and `seqResolved` is the `resolved` closure
flag of `initNextCamera`. -/

/-- The per-session callbacks that can fire on the event loop. -/
inductive SessEvent where
  | retryFire
  | recoveryReinit
  | seqTimeout
  | seqPlaying
  | seqStabilize
  | elemPlaying
  | elemStalled
  | elemError
  | hlsErrorEvt (data : HlsErrorData)
  deriving DecidableEq

/-- Values sampled from the environment when a callback fires. -/
structure EventEnv where
  now : ℚ
  jitter : ℚ
  recoverMediaThrows : Bool
  deriving DecidableEq

/-- Single-session view of the manager and platform state. -/
structure SessState where
  cam : CameraData
  camera : CameraConfig
  isPageVisible : Bool
  benv : BrowserEnv
  seqPlayingAttached : Bool
  seqResolved : Bool
  recoveryReinitPending : Bool
  seqStabilizePending : Bool
  queueAdvances : Nat
  deriving DecidableEq

/-- One callback firing.  Each branch follows the corresponding source
handler; a disabled callback (cancelled timer, removed listener, nothing
pending) leaves the state unchanged.
* `retryFire`: the retry/cooldown timer callback (lines 867-871 and
  884-889) — nulls the timer field, then guards on
  `!isDestroyed && camera.url && isPageVisible` before re-initializing.
* `recoveryReinit`: the 1 s delay of `recoverCamera` (lines 272-277) —
  guards on `!isDestroyed && isPageVisible`.
* `seqTimeout`: `onTimeout` of `initNextCamera` (lines 507-513) — guards
  only on `resolved`, then advances the queue.
* `seqPlaying`: `onPlaying` of `initNextCamera` (lines 496-504) — guards
  only on `resolved`, clears the sequencing timer, removes itself, and
  schedules the 500 ms stabilization timer.
* `seqStabilize`: that stabilization timer — advances the queue.
* `elemPlaying`/`elemStalled`/`elemError`: the element listeners of
  `createCameraElement` (lines 559-591) — destroyed-check first.
* `hlsErrorEvt`: the engine `ERROR` handler (lines 710-713) —
  destroyed-check first, then `handleHlsError`. -/
def step (ev : SessEvent) (env : EventEnv) (s : SessState) : SessState :=
  match ev with
  | SessEvent.retryFire =>
    match s.cam.retryTimeout with
    | none => s
    | some _ =>
      let cam1 := { s.cam with retryTimeout := none }
      if cam1.isDestroyed = false ∧ urlTruthy s.camera.url = true ∧
          s.isPageVisible = true then
        { s with cam := initializeStream cam1 s.camera s.isPageVisible s.benv }
      else { s with cam := cam1 }
  | SessEvent.recoveryReinit =>
    if s.recoveryReinitPending = false then s
    else
      let s1 := { s with recoveryReinitPending := false }
      if s1.cam.isDestroyed = false ∧ s1.isPageVisible = true then
        { s1 with cam := initializeStream s1.cam s1.camera s1.isPageVisible s1.benv }
      else s1
  | SessEvent.seqTimeout =>
    if s.cam.initTimeout = false then s
    else
      let s1 := { s with cam := { s.cam with initTimeout := false } }
      if s1.seqResolved = true then s1
      else { s1 with seqResolved := true, seqPlayingAttached := false,
                     queueAdvances := s1.queueAdvances + 1 }
  | SessEvent.seqPlaying =>
    if s.seqPlayingAttached = false then s
    else if s.seqResolved = true then s
    else { s with seqResolved := true,
                  cam := { s.cam with initTimeout := false },
                  seqPlayingAttached := false,
                  seqStabilizePending := true }
  | SessEvent.seqStabilize =>
    if s.seqStabilizePending = false then s
    else { s with seqStabilizePending := false,
                  queueAdvances := s.queueAdvances + 1 }
  | SessEvent.elemPlaying =>
    if s.cam.videoEventCleanups = false then s
    else if s.cam.isDestroyed = true then s
    else
      let ct := (s.cam.element.map (fun e => e.currentTime)).getD 0
      let cam1 :=
        { s.cam with stallCount := 0, lastPlaybackTime := ct, lastCheckTime := env.now }
      { s with cam := cam1 }
  | SessEvent.elemStalled =>
    if s.cam.videoEventCleanups = false then s
    else { s with cam := onStalledHandler s.cam }
  | SessEvent.elemError =>
    if s.cam.videoEventCleanups = false then s
    else if s.cam.isDestroyed = true then s
    else if urlTruthy s.camera.url then
      { s with cam := (scheduleRetry s.cam env.jitter).1 }
    else s
  | SessEvent.hlsErrorEvt data =>
    if s.cam.eventCleanups = false then s
    else if s.cam.isDestroyed = true then s
    else
      let cam1 := (handleHlsError s.cam data env.jitter env.recoverMediaThrows).1
      { s with cam := cam1 }

/-- Run a whole interleaving of callbacks. -/
def run (evs : List (SessEvent × EventEnv)) (s : SessState) : SessState :=
  evs.foldl (fun s pe => step pe.1 pe.2 s) s

/-- `destroyCamera` as seen by the single-session event loop: it mutates
only the session record.  It does *not* remove the sequencing `playing`
listener, nor cancel a pending recovery delay or stabilization timer. -/
def destroySess (s : SessState) : SessState :=
  { s with cam := destroyCameraData s.cam }

/-- What `destroyCamera` establishes: terminal flag set, both timers
cleared, engine and element listeners removed. -/
def DestroyedQuiescent (s : SessState) : Prop :=
  s.cam.isDestroyed = true ∧ s.cam.retryTimeout = none ∧
  s.cam.initTimeout = false ∧ s.cam.eventCleanups = false ∧
  s.cam.videoEventCleanups = false

theorem destroySess_quiescent (s : SessState) :
    DestroyedQuiescent (destroySess s) := ⟨rfl, rfl, rfl, rfl, rfl⟩

theorem step_preserves_destroyed (ev : SessEvent) (env : EventEnv)
    (s : SessState) (h : DestroyedQuiescent s) :
    (step ev env s).cam = s.cam ∧ DestroyedQuiescent (step ev env s) := by
  obtain ⟨h1, h2, h3, h4, h5⟩ := h
  cases ev with
  | retryFire =>
    simp only [step]
    rw [h2]
    exact ⟨rfl, h1, h2, h3, h4, h5⟩
  | recoveryReinit =>
    simp only [step]
    by_cases hp : s.recoveryReinitPending = false
    · rw [if_pos hp]
      exact ⟨rfl, h1, h2, h3, h4, h5⟩
    · rw [if_neg hp, if_neg (by simp [h1])]
      exact ⟨rfl, h1, h2, h3, h4, h5⟩
  | seqTimeout =>
    simp only [step]
    rw [if_pos h3]
    exact ⟨rfl, h1, h2, h3, h4, h5⟩
  | seqPlaying =>
    simp only [step]
    have hcam : { s.cam with initTimeout := false } = s.cam := by rw [← h3]
    by_cases hp : s.seqPlayingAttached = false
    · rw [if_pos hp]
      exact ⟨rfl, h1, h2, h3, h4, h5⟩
    · rw [if_neg hp]
      by_cases hr : s.seqResolved = true
      · rw [if_pos hr]
        exact ⟨rfl, h1, h2, h3, h4, h5⟩
      · rw [if_neg hr]
        rw [hcam]
        exact ⟨rfl, h1, h2, h3, h4, h5⟩
  | seqStabilize =>
    simp only [step]
    by_cases hp : s.seqStabilizePending = false
    · rw [if_pos hp]
      exact ⟨rfl, h1, h2, h3, h4, h5⟩
    · rw [if_neg hp]
      exact ⟨rfl, h1, h2, h3, h4, h5⟩
  | elemPlaying =>
    simp only [step]
    rw [if_pos h5]
    exact ⟨rfl, h1, h2, h3, h4, h5⟩
  | elemStalled =>
    simp only [step]
    rw [if_pos h5]
    exact ⟨rfl, h1, h2, h3, h4, h5⟩
  | elemError =>
    simp only [step]
    rw [if_pos h5]
    exact ⟨rfl, h1, h2, h3, h4, h5⟩
  | hlsErrorEvt data =>
    simp only [step]
    rw [if_pos h4]
    exact ⟨rfl, h1, h2, h3, h4, h5⟩

theorem run_preserves_destroyed (evs : List (SessEvent × EventEnv))
    (s : SessState) (h : DestroyedQuiescent s) : (run evs s).cam = s.cam := by
  induction evs generalizing s with
  | nil => rfl
  | cons pe t ih =>
    have hstep := step_preserves_destroyed pe.1 pe.2 s h
    calc (run (pe :: t) s).cam = (run t (step pe.1 pe.2 s)).cam := rfl
    _ = (step pe.1 pe.2 s).cam := ih (step pe.1 pe.2 s) hstep.2
    _ = s.cam := hstep.1

/-- C2 (amended): after `destroyCamera` runs on a session, no
interleaving of subsequently-firing callbacks (retry/cooldown timer,
recovery delay, sequencing timeout, sequencing and element `playing`
listeners, `stalled`/`error` listeners, engine error handler,
stabilization timer) ever mutates that session's record again: the
timers among them were cancelled by the destroy and every remaining
callback that touches the session checks the destroyed flag first.  (The
sequencing `playing` listener survives the destroy and performs no such
check, but it never writes to the session — see the counterexample for
what it does instead.) -/
theorem no_callback_mutates_destroyed_session (s : SessState)
    (evs : List (SessEvent × EventEnv)) :
    (run evs (destroySess s)).cam = (destroySess s).cam :=
  run_preserves_destroyed evs (destroySess s) (destroySess_quiescent s)

/-- A session destroyed while it was the in-flight slot of the staggered
sequencer: its `initNextCamera` `playing` listener is still attached and
unresolved. -/
def inflightDestroyed : SessState :=
  { cam := destroyCameraData { sampleSession with initTimeout := true },
    camera := hlsCamCfg, isPageVisible := true, benv := ⟨true, false⟩,
    seqPlayingAttached := true, seqResolved := false,
    recoveryReinitPending := false, seqStabilizePending := false,
    queueAdvances := 0 }

/-- Counterexample to C2 as stated: the sequencing `playing` listener
fires on the already-destroyed session without any destroyed-flag check,
schedules the 500 ms stabilization timer, and that timer then advances
the init queue — a callback for a destroyed session scheduling further
work and mutating shared sequencing state. -/
theorem stale_seq_playing_schedules_counterexample :
    inflightDestroyed.cam.isDestroyed = true ∧
    (step SessEvent.seqPlaying ⟨0, 0, false⟩
      inflightDestroyed).seqStabilizePending = true ∧
    (step SessEvent.seqStabilize ⟨0, 0, false⟩
        (step SessEvent.seqPlaying ⟨0, 0, false⟩
          inflightDestroyed)).queueAdvances =
      inflightDestroyed.queueAdvances + 1 := by
  refine ⟨rfl, ?_, ?_⟩ <;> decide

/-! ## Sequencer timeline

The timed behaviour of `sequentialInit`/`initNextCamera` (lines 452-526)
for a queue of slots that all exist, are not destroyed, and stay on a
visible page.  `playsAt` is, per slot, the delay after its stream
initialization at which its sink fires `playing` (`none`: never).  A slot
resolves when its `playing` event beats the 15 s per-slot timeout,
otherwise at the timeout; after a `playing` resolution the next slot
starts 500 ms later (the stabilization delay), after a timeout it starts
immediately.  When the queue is empty `initNextCamera` starts the health
monitor. -/

/-- Computed schedule of one staggered slot: when it started, when it
resolved, and whether it resolved by playing (`true`) or by timeout. -/
structure SlotTiming where
  start : ℚ
  resolve : ℚ
  played : Bool
  deriving DecidableEq

/-- Resolution of the in-flight slot. -/
def slotResolve (start : ℚ) (playsAt : Option ℚ) : ℚ × Bool :=
  match playsAt with
  | some t =>
    if t < SEQUENTIAL_TIMEOUT_MS then (start + t, true)
    else (start + SEQUENTIAL_TIMEOUT_MS, false)
  | none => (start + SEQUENTIAL_TIMEOUT_MS, false)

/-- The start time of the slot after one that resolved as `r`. -/
def nextStart (r : ℚ × Bool) : ℚ :=
  if r.2 then r.1 + STABILIZE_DELAY_MS else r.1

/-- The timeline of the staggered queue, starting at time `s0`. -/
def seqTimeline : ℚ → List (Option ℚ) → List SlotTiming
  | _, [] => []
  | s0, p :: rest =>
    let r := slotResolve s0 p
    ⟨s0, r.1, r.2⟩ :: seqTimeline (nextStart r) rest

/-- The time at which `initNextCamera` finds the queue empty and starts
the health monitor. -/
def monitorStartTime : ℚ → List (Option ℚ) → ℚ
  | s0, [] => s0
  | s0, p :: rest => monitorStartTime (nextStart (slotResolve s0 p)) rest

theorem slotResolve_ge (s0 : ℚ) (p : Option ℚ)
    (hp : ∀ t, p = some t → 0 ≤ t) : s0 ≤ (slotResolve s0 p).1 := by
  have h15 : (0 : ℚ) ≤ SEQUENTIAL_TIMEOUT_MS := by
    norm_num [SEQUENTIAL_TIMEOUT_MS]
  cases p with
  | none =>
    show s0 ≤ s0 + SEQUENTIAL_TIMEOUT_MS
    linarith
  | some t =>
    have ht : 0 ≤ t := hp t rfl
    simp only [slotResolve]
    split_ifs with h
    · show s0 ≤ s0 + t
      linarith
    · show s0 ≤ s0 + SEQUENTIAL_TIMEOUT_MS
      linarith

theorem slotResolve_le (s0 : ℚ) (p : Option ℚ) :
    (slotResolve s0 p).1 ≤ s0 + SEQUENTIAL_TIMEOUT_MS := by
  cases p with
  | none => exact le_refl _
  | some t =>
    simp only [slotResolve]
    split_ifs with h
    · show s0 + t ≤ s0 + SEQUENTIAL_TIMEOUT_MS
      linarith
    · exact le_refl _

theorem le_nextStart (r : ℚ × Bool) : r.1 ≤ nextStart r := by
  have h05 : (0 : ℚ) ≤ STABILIZE_DELAY_MS := by norm_num [STABILIZE_DELAY_MS]
  unfold nextStart
  split_ifs
  · linarith
  · exact le_refl _

theorem nextStart_le (s0 : ℚ) (p : Option ℚ) :
    nextStart (slotResolve s0 p) ≤
      s0 + (SEQUENTIAL_TIMEOUT_MS + STABILIZE_DELAY_MS) := by
  have h05 : (0 : ℚ) ≤ STABILIZE_DELAY_MS := by norm_num [STABILIZE_DELAY_MS]
  cases p with
  | none =>
    show nextStart (s0 + SEQUENTIAL_TIMEOUT_MS, false) ≤
      s0 + (SEQUENTIAL_TIMEOUT_MS + STABILIZE_DELAY_MS)
    unfold nextStart
    simp only [if_neg (by simp : ¬ ((s0 + SEQUENTIAL_TIMEOUT_MS, false).2 = true))]
    linarith
  | some t =>
    simp only [slotResolve]
    split_ifs with h
    · show nextStart (s0 + t, true) ≤ s0 + (SEQUENTIAL_TIMEOUT_MS + STABILIZE_DELAY_MS)
      unfold nextStart
      simp only [if_pos (by simp : ((s0 + t, true).2 = true))]
      show s0 + t + STABILIZE_DELAY_MS ≤ s0 + (SEQUENTIAL_TIMEOUT_MS + STABILIZE_DELAY_MS)
      linarith
    · show nextStart (s0 + SEQUENTIAL_TIMEOUT_MS, false) ≤
        s0 + (SEQUENTIAL_TIMEOUT_MS + STABILIZE_DELAY_MS)
      unfold nextStart
      simp only [if_neg (by simp : ¬ ((s0 + SEQUENTIAL_TIMEOUT_MS, false).2 = true))]
      linarith

theorem seqTimeline_length (l : List (Option ℚ)) (s0 : ℚ) :
    (seqTimeline s0 l).length = l.length := by
  induction l generalizing s0 with
  | nil => rfl
  | cons p rest ih => simp [seqTimeline, ih]

theorem seqTimeline_start_ge (l : List (Option ℚ)) (s0 : ℚ)
    (hp : ∀ t, some t ∈ l → 0 ≤ t) :
    ∀ e ∈ seqTimeline s0 l, s0 ≤ e.start := by
  induction l generalizing s0 with
  | nil => intro e he; simp [seqTimeline] at he
  | cons p rest ih =>
    intro e he
    simp only [seqTimeline, List.mem_cons] at he
    rcases he with rfl | he
    · exact le_refl s0
    · have hrest : ∀ t, some t ∈ rest → 0 ≤ t :=
        fun t ht => hp t (List.mem_cons_of_mem _ ht)
      have h1 := ih (nextStart (slotResolve s0 p)) hrest e he
      have h2 : s0 ≤ nextStart (slotResolve s0 p) :=
        le_trans (slotResolve_ge s0 p (fun t ht => hp t (by rw [ht]; simp)))
          (le_nextStart _)
      linarith

theorem seqTimeline_window (l : List (Option ℚ)) (s0 : ℚ) :
    ∀ e ∈ seqTimeline s0 l, e.resolve ≤ e.start + SEQUENTIAL_TIMEOUT_MS := by
  induction l generalizing s0 with
  | nil => intro e he; simp [seqTimeline] at he
  | cons p rest ih =>
    intro e he
    simp only [seqTimeline, List.mem_cons] at he
    rcases he with rfl | he
    · exact slotResolve_le s0 p
    · exact ih _ e he

theorem seqTimeline_chain (l : List (Option ℚ)) (s0 : ℚ)
    (hp : ∀ t, some t ∈ l → 0 ≤ t) :
    (seqTimeline s0 l).Pairwise (fun a b => a.resolve ≤ b.start) := by
  induction l generalizing s0 with
  | nil => simp [seqTimeline]
  | cons p rest ih =>
    have hrest : ∀ t, some t ∈ rest → 0 ≤ t :=
      fun t ht => hp t (List.mem_cons_of_mem _ ht)
    simp only [seqTimeline]
    refine List.Pairwise.cons ?_ (ih _ hrest)
    intro b hb
    have h1 := seqTimeline_start_ge rest (nextStart (slotResolve s0 p)) hrest b hb
    have h2 : (slotResolve s0 p).1 ≤ nextStart (slotResolve s0 p) :=
      le_nextStart _
    simp only
    linarith

theorem seqTimeline_total_bound (l : List (Option ℚ)) (s0 : ℚ) :
    ∀ e ∈ seqTimeline s0 l,
      e.resolve ≤ s0 + l.length * (SEQUENTIAL_TIMEOUT_MS + STABILIZE_DELAY_MS) := by
  induction l generalizing s0 with
  | nil => intro e he; simp [seqTimeline] at he
  | cons p rest ih =>
    intro e he
    simp only [seqTimeline, List.mem_cons] at he
    have hlen : (0 : ℚ) ≤ rest.length := by positivity
    have hcast : ((p :: rest).length : ℚ) = (rest.length : ℚ) + 1 := by
      push_cast [List.length_cons]
      ring
    rcases he with rfl | he
    · have h1 := slotResolve_le s0 p
      rw [hcast]
      simp only [SEQUENTIAL_TIMEOUT_MS, STABILIZE_DELAY_MS] at h1 ⊢
      nlinarith
    · have h1 := ih (nextStart (slotResolve s0 p)) e he
      have h2 := nextStart_le s0 p
      rw [hcast]
      simp only [SEQUENTIAL_TIMEOUT_MS, STABILIZE_DELAY_MS] at h1 h2 ⊢
      nlinarith

theorem monitorStartTime_ge (l : List (Option ℚ)) (s0 : ℚ)
    (hp : ∀ t, some t ∈ l → 0 ≤ t) : s0 ≤ monitorStartTime s0 l := by
  induction l generalizing s0 with
  | nil => exact le_refl s0
  | cons p rest ih =>
    have hrest : ∀ t, some t ∈ rest → 0 ≤ t :=
      fun t ht => hp t (List.mem_cons_of_mem _ ht)
    have h1 := ih (nextStart (slotResolve s0 p)) hrest
    have h2 : s0 ≤ nextStart (slotResolve s0 p) :=
      le_trans (slotResolve_ge s0 p (fun t ht => hp t (by rw [ht]; simp)))
        (le_nextStart _)
    calc s0 ≤ nextStart (slotResolve s0 p) := h2
    _ ≤ monitorStartTime (nextStart (slotResolve s0 p)) rest := h1
    _ = monitorStartTime s0 (p :: rest) := rfl

theorem seqTimeline_before_monitor (l : List (Option ℚ)) (s0 : ℚ)
    (hp : ∀ t, some t ∈ l → 0 ≤ t) :
    ∀ e ∈ seqTimeline s0 l, e.resolve ≤ monitorStartTime s0 l := by
  induction l generalizing s0 with
  | nil => intro e he; simp [seqTimeline] at he
  | cons p rest ih =>
    intro e he
    have hrest : ∀ t, some t ∈ rest → 0 ≤ t :=
      fun t ht => hp t (List.mem_cons_of_mem _ ht)
    simp only [seqTimeline, List.mem_cons] at he
    rcases he with rfl | he
    · have h1 : (slotResolve s0 p).1 ≤ nextStart (slotResolve s0 p) :=
        le_nextStart _
      have h2 := monitorStartTime_ge rest (nextStart (slotResolve s0 p)) hrest
      calc (slotResolve s0 p).1 ≤ nextStart (slotResolve s0 p) := h1
      _ ≤ monitorStartTime (nextStart (slotResolve s0 p)) rest := h2
      _ = monitorStartTime s0 (p :: rest) := rfl
    · exact ih _ hrest e he

/-- C8 (amended): under the staggered policy with `N ≥ 1` slots, every
slot reaches exactly one outcome (played or timed out), each within 15 s
of its own start; at most one slot is in flight at any time (the
in-flight intervals are pairwise disjoint); every slot resolves within
`N × 15.5 s` of sequencer start (15 s timeout plus up to 0.5 s
stabilization per slot — the claimed `N × 15 s` fails, see the
counterexample); and the health monitor starts only after every slot has
resolved. -/
theorem staggered_startup_spec (plays : List (Option ℚ))
    (hN : 1 ≤ plays.length) (hpos : ∀ t, some t ∈ plays → 0 ≤ t) :
    (seqTimeline 0 plays).length = plays.length ∧
    (∀ e ∈ seqTimeline 0 plays,
      e.resolve ≤ e.start + SEQUENTIAL_TIMEOUT_MS) ∧
    (∀ (i j : Fin (seqTimeline 0 plays).length) (t : ℚ),
      ((seqTimeline 0 plays).get i).start ≤ t →
      t < ((seqTimeline 0 plays).get i).resolve →
      ((seqTimeline 0 plays).get j).start ≤ t →
      t < ((seqTimeline 0 plays).get j).resolve → i = j) ∧
    (∀ e ∈ seqTimeline 0 plays,
      e.resolve ≤ plays.length * (SEQUENTIAL_TIMEOUT_MS + STABILIZE_DELAY_MS)) ∧
    (∀ e ∈ seqTimeline 0 plays, e.resolve ≤ monitorStartTime 0 plays) := by
  have hchain := seqTimeline_chain plays 0 hpos
  refine ⟨seqTimeline_length plays 0, seqTimeline_window plays 0, ?_, ?_,
    seqTimeline_before_monitor plays 0 hpos⟩
  · intro i j t hi1 hi2 hj1 hj2
    rcases lt_trichotomy i j with h | h | h
    · have hij := List.pairwise_iff_get.mp hchain i j h
      exact absurd (lt_of_le_of_lt (le_trans hij hj1) hi2) (lt_irrefl _)
    · exact h
    · have hji := List.pairwise_iff_get.mp hchain j i h
      exact absurd (lt_of_le_of_lt (le_trans hji hi1) hj2) (lt_irrefl _)
  · intro e he
    have := seqTimeline_total_bound plays 0 e he
    simpa using this

/-- Witness for C8 (amended): a 3-slot queue where slot 0 plays after
1 s, slot 1 never plays, and slot 2 "plays" only after 20 s (past the
timeout). -/
theorem staggered_startup_spec_witness :
    (1 ≤ ([some 1000, none, some 20000] : List (Option ℚ)).length) ∧
    (∀ t, some t ∈ ([some 1000, none, some 20000] : List (Option ℚ)) → 0 ≤ t) ∧
    ((seqTimeline 0 [some 1000, none, some 20000]).length =
      ([some 1000, none, some 20000] : List (Option ℚ)).length ∧
     (∀ e ∈ seqTimeline 0 [some 1000, none, some 20000],
       e.resolve ≤ e.start + SEQUENTIAL_TIMEOUT_MS) ∧
     (∀ (i j : Fin (seqTimeline 0 [some 1000, none, some 20000]).length) (t : ℚ),
       ((seqTimeline 0 [some 1000, none, some 20000]).get i).start ≤ t →
       t < ((seqTimeline 0 [some 1000, none, some 20000]).get i).resolve →
       ((seqTimeline 0 [some 1000, none, some 20000]).get j).start ≤ t →
       t < ((seqTimeline 0 [some 1000, none, some 20000]).get j).resolve →
       i = j) ∧
     (∀ e ∈ seqTimeline 0 [some 1000, none, some 20000],
       e.resolve ≤ ([some 1000, none, some 20000] : List (Option ℚ)).length *
         (SEQUENTIAL_TIMEOUT_MS + STABILIZE_DELAY_MS)) ∧
     (∀ e ∈ seqTimeline 0 [some 1000, none, some 20000],
       e.resolve ≤ monitorStartTime 0 [some 1000, none, some 20000])) := by
  have hpos : ∀ t, some t ∈ ([some 1000, none, some 20000] : List (Option ℚ)) →
      0 ≤ t := by
    intro t ht
    simp at ht
    rcases ht with rfl | rfl <;> norm_num
  exact ⟨by norm_num, hpos,
    staggered_startup_spec [some 1000, none, some 20000] (by norm_num) hpos⟩

/-- Counterexample to C8's `N × 15 s` bound: with two slots where slot 0
fires `playing` at 14.9 s and slot 1 never plays, slot 1 times out at
30.4 s — later than `2 × 15 s = 30 s` — because of the 0.5 s
stabilization delay inserted after slot 0's `playing`. -/
theorem staggered_exceeds_n_times_15s_counterexample :
    seqTimeline 0 [some 14900, none] =
      [⟨0, 14900, true⟩, ⟨15400, 30400, false⟩] ∧
    (30400 : ℚ) > 2 * 15000 := by
  constructor
  · simp only [seqTimeline, slotResolve, nextStart, SEQUENTIAL_TIMEOUT_MS,
      STABILIZE_DELAY_MS]
    norm_num
  · norm_num

end Shad
